import Mathlib

/-!
Shallow embedding of the core of the `gemini-business2api` repository
(`core/message.py` and `core/freemail_client.py`) together with proofs of
the behavioural properties stated in the project specification.

Modelling conventions:
* Python dicts holding message/part fields are modelled by structures whose
  fields carry the values of the relevant keys (`none` = key absent / JSON null).
* Python truthiness of optional strings (`x or y`, `if x:`) is modelled
  explicitly (`pyOrS`, `truthyOpt`): `None` and the empty string are falsy.
* `str.strip()` / `str.lower()` are modelled by `String.trim` / `String.toLower`
  (ASCII whitespace and case; no property proved here depends on the
  non-ASCII differences).
* Machine floats used for epoch timestamps are modelled by exact rationals.
-/

/-! ### core/message.py : content values and text extraction -/

/-- Model of one element of a multimodal `content` array: a dict probed with
`get("type")`, `get("text", "")` and `get("image_url", {}).get("url", "")`.
Missing keys are modelled by the empty string. -/
structure ContentPart where
  ptype : String
  text : String
  imageUrl : String
deriving DecidableEq, Repr

/-- Model of a message `content` value: a plain string, a list of parts, a
JSON object (carrying its `json.dumps(..., ensure_ascii=False)` rendering;
the same string is used for Python `str()` of the object, a conflation no
proved property depends on), or `None`. -/
inductive ContentVal where
  | strVal (s : String)
  | listVal (parts : List ContentPart)
  | dictVal (dump : String)
  | noneVal
deriving DecidableEq, Repr

/-- Model of Python `str()` applied to a non-list content value. -/
def pyStr : ContentVal → String
  | .strVal s => s
  | .listVal _ => ""
  | .dictVal d => d
  | .noneVal => "None"

/-- Embedding of `extract_text_from_content` (message.py lines 64-77):
string passthrough, concatenation of the `text` of all `type == "text"`
parts for a list, `""` for `None`, `str(content)` otherwise. -/
def extract_text_from_content : ContentVal → String
  | .strVal s => s
  | .listVal parts =>
      String.join (parts.map (fun p => if p.ptype = "text" then p.text else ""))
  | .noneVal => ""
  | .dictVal d => d

/-! ### core/message.py : conversation fingerprint -/

/-- Model of one element of the `messages` list handed to
`get_conversation_key`: a dict probed with `get("role", "")` and
`get("content", "")`. An absent role is modelled by `""`, an absent content
by `.strVal ""`. -/
structure FpMessage where
  role : String
  content : ContentVal
deriving DecidableEq, Repr

/-- Text normalisation used by `get_conversation_key` (line 51):
`text.strip().lower()`. -/
def normalizeText (s : String) : String := s.trim.toLower

/-- Per-message fingerprint text (lines 40-54): a list content goes through
`extract_text_from_content`, anything else through Python `str()`, then the
result is normalised and combined with the role as `"role:text"`. -/
def messageFp (m : FpMessage) : String :=
  let text := match m.content with
    | .listVal parts => extract_text_from_content (.listVal parts)
    | c => pyStr c
  m.role ++ ":" ++ normalizeText text

/-- String fed to the digest (lines 56-59): `"|"`-join of the first three
messages' fingerprints, prefixed by `clientIdentifier ++ "|"` when the
identifier is non-empty. -/
def conversationPre (messages : List FpMessage) (client_identifier : String) : String :=
  let joined := String.intercalate "|" ((messages.take 3).map messageFp)
  if client_identifier ≠ "" then client_identifier ++ "|" ++ joined else joined

/-- Model of `hashlib.md5(s.encode()).hexdigest()`. The specification treats
the digest as a fixed, deterministic, collision-resistant function; we model
it as an injective encoding of its input (collision resistance idealised as
injectivity), which is exactly the interface the fingerprint properties use. -/
def md5_hexdigest (s : String) : String := s

/-- Embedding of `get_conversation_key` (message.py lines 21-61). -/
def get_conversation_key (messages : List FpMessage) (client_identifier : String) : String :=
  if messages = [] then
    (if client_identifier ≠ "" then client_identifier ++ ":empty" else "empty")
  else md5_hexdigest (conversationPre messages client_identifier)

/-! #### C1 helper lemmas -/

lemma md5_hexdigest_inj {s t : String} (h : md5_hexdigest s = md5_hexdigest t) : s = t := h

lemma conversationPre_take (messages : List FpMessage) (c : String) :
    conversationPre messages c = conversationPre (messages.take 3) c := by
  simp [conversationPre, List.take_take]

lemma conversationPre_inj_client {messages : List FpMessage} {c₁ c₂ : String}
    (h : conversationPre messages c₁ = conversationPre messages c₂) : c₁ = c₂ := by
  unfold conversationPre at h
  set j := String.intercalate "|" ((messages.take 3).map messageFp) with hj
  by_cases h₁ : c₁ = "" <;> by_cases h₂ : c₂ = "" <;> simp only [h₁, h₂, if_true, if_false,
    ne_eq, not_true_eq_false, not_false_eq_true, ite_true, ite_false, ite_not] at h
  · exact h₁.trans h₂.symm
  · -- c₁ = "", c₂ ≠ "" : lengths differ
    exfalso
    have hlen := congrArg (fun s : String => s.data.length) h
    simp only [String.data_append, List.length_append] at hlen
    have hc₂ : c₂.data ≠ [] := fun hnil => h₂ (String.ext hnil)
    have hpos : 0 < c₂.data.length := List.length_pos.mpr hc₂
    omega
  · -- c₁ ≠ "", c₂ = ""
    exfalso
    have hlen := congrArg (fun s : String => s.data.length) h
    simp only [String.data_append, List.length_append] at hlen
    have hc₁ : c₁.data ≠ [] := fun hnil => h₁ (String.ext hnil)
    have hpos : 0 < c₁.data.length := List.length_pos.mpr hc₁
    omega
  · -- both non-empty: cancel the common suffix "|" ++ j
    have hdata := congrArg String.data h
    simp only [String.data_append, List.append_assoc] at hdata
    have hlen : c₁.data.length = c₂.data.length := by
      have hl := congrArg List.length hdata
      simp only [List.length_append] at hl
      omega
    exact String.ext (List.append_inj_left hdata hlen)

/-- C1: `get_conversation_key` is deterministic; for non-empty message lists
its value depends only on the first three messages; and for a fixed
non-empty message list, distinct client identifiers give distinct keys. -/
theorem get_conversation_key_spec (ms ms' : List FpMessage) (c c' : String)
    (hne : ms ≠ []) :
    (get_conversation_key ms c = get_conversation_key ms c) ∧
    (ms.take 3 = ms'.take 3 → get_conversation_key ms c = get_conversation_key ms' c) ∧
    (c ≠ c' → get_conversation_key ms c ≠ get_conversation_key ms c') := by
  refine ⟨rfl, ?_, ?_⟩
  · intro htake
    have hne' : ms' ≠ [] := by
      intro h
      rw [h] at htake
      simp at htake
      exact hne htake
    simp only [get_conversation_key, if_neg hne, if_neg hne']
    rw [conversationPre_take ms c, conversationPre_take ms' c, htake]
  · intro hc hkey
    simp only [get_conversation_key, if_neg hne] at hkey
    exact hc (conversationPre_inj_client (md5_hexdigest_inj hkey))

/-- C1 witness: concrete instantiation of the hypotheses of
`get_conversation_key_spec`. -/
theorem get_conversation_key_spec_witness :
    ([⟨"user", .strVal "Hi"⟩] : List FpMessage) ≠ [] ∧
    (get_conversation_key [⟨"user", .strVal "Hi"⟩] "a" =
      get_conversation_key [⟨"user", .strVal "Hi"⟩] "a") ∧
    (([⟨"user", .strVal "Hi"⟩] : List FpMessage).take 3 =
        ([⟨"user", .strVal "Hi"⟩] : List FpMessage).take 3 →
      get_conversation_key [⟨"user", .strVal "Hi"⟩] "a" =
        get_conversation_key [⟨"user", .strVal "Hi"⟩] "a") ∧
    ("a" ≠ "b" →
      get_conversation_key [⟨"user", .strVal "Hi"⟩] "a" ≠
        get_conversation_key [⟨"user", .strVal "Hi"⟩] "b") :=
  ⟨by decide, get_conversation_key_spec [⟨"user", .strVal "Hi"⟩] [⟨"user", .strVal "Hi"⟩] "a" "b" (by decide)⟩

/-! ### core/freemail_client.py : poll_for_code -/

/-- Observable outcome of one run of the polling loop: how many calls to
`fetch_verification_code` were made, how many `time.sleep(interval)` calls
happened, and the returned value. -/
structure PollTrace where
  attempts : Nat
  sleeps : Nat
  result : Option String
deriving DecidableEq, Repr

/-- Embedding of the loop body of `poll_for_code` (freemail_client.py lines
351-360). `fetch i` is the value returned by the `i`-th call to
`fetch_verification_code`; `poll_attempts fetch i r` runs attempts
`i, i+1, ..., i+r-1`, sleeping after every unsuccessful attempt except the
last one. -/
def poll_attempts (fetch : Nat → Option String) (i : Nat) : Nat → PollTrace
  | 0 => ⟨0, 0, none⟩
  | r + 1 =>
    match fetch i with
    | some code => ⟨1, 0, some code⟩
    | none =>
      if r = 0 then ⟨1, 0, none⟩
      else
        let t := poll_attempts fetch (i + 1) r
        ⟨t.attempts + 1, t.sleeps + 1, t.result⟩

/-- Embedding of `poll_for_code` (freemail_client.py lines 341-363):
`max_retries = max(1, timeout // interval)` attempts starting at attempt 1. -/
def poll_for_code (fetch : Nat → Option String) (timeout interval : Nat) : PollTrace :=
  poll_attempts fetch 1 (max 1 (timeout / interval))

lemma poll_attempts_succ (fetch : Nat → Option String) (i r : Nat) :
    poll_attempts fetch i (r + 1) =
      match fetch i with
      | some code => ⟨1, 0, some code⟩
      | none =>
        if r = 0 then ⟨1, 0, none⟩
        else
          let t := poll_attempts fetch (i + 1) r
          ⟨t.attempts + 1, t.sleeps + 1, t.result⟩ := rfl

lemma poll_attempts_all_none (fetch : Nat → Option String) :
    ∀ r i, (∀ k, fetch k = none) → poll_attempts fetch i (r + 1) = ⟨r + 1, r, none⟩ := by
  intro r
  induction r with
  | zero => intro i h; simp [poll_attempts, h i]
  | succ r ih =>
    intro i h
    rw [poll_attempts_succ, h i, ih (i + 1) h]
    rfl

lemma poll_attempts_first_some (fetch : Nat → Option String) :
    ∀ (k : Nat) (r i : Nat) (c : String), 1 ≤ k → k ≤ r →
      (∀ j, i ≤ j → j < i + (k - 1) → fetch j = none) → fetch (i + (k - 1)) = some c →
      poll_attempts fetch i r = ⟨k, k - 1, some c⟩ := by
  intro k
  induction k with
  | zero => intro r i c h1; omega
  | succ k ih =>
    intro r i c _ hkr hnone hsome
    match r, hkr with
    | r + 1, _ =>
      by_cases hk : k = 0
      · subst hk
        simp only [Nat.add_sub_cancel, Nat.add_zero] at hsome
        simp [poll_attempts, hsome]
      · have hfi : fetch i = none := hnone i (Nat.le_refl i) (by omega)
        have hrec : poll_attempts fetch (i + 1) r = ⟨k, k - 1, some c⟩ := by
          apply ih r (i + 1) c (by omega) (by omega)
          · intro j hj1 hj2; exact hnone j (by omega) (by omega)
          · have harg : i + 1 + (k - 1) = i + (k + 1 - 1) := by omega
            rw [harg]; exact hsome
        have hk1 : k + 1 - 1 = (k - 1) + 1 := by omega
        rw [poll_attempts_succ, hfi, hrec, if_neg (by omega : ¬ r = 0), hk1]

/-- C2: with a positive interval, `poll_for_code` makes exactly
`max 1 (timeout / interval)` attempts when every fetch fails, sleeping
between consecutive attempts but not after the last one, and returns
`none`; with `timeout = 12`, `interval = 4` that is 3 attempts and 2
sleeps; and if the `k`-th attempt is the first to return a code, the loop
stops there with `k` attempts, `k - 1` sleeps and that code as result. -/
theorem poll_for_code_spec (fetch : Nat → Option String) (timeout interval : Nat)
    (hpos : 0 < interval) :
    ((∀ k, fetch k = none) →
      poll_for_code fetch timeout interval =
        ⟨max 1 (timeout / interval), max 1 (timeout / interval) - 1, none⟩) ∧
    ((∀ k, fetch k = none) → poll_for_code fetch 12 4 = ⟨3, 2, none⟩) ∧
    (∀ k c, 1 ≤ k → k ≤ max 1 (timeout / interval) →
      (∀ j, 1 ≤ j → j < k → fetch j = none) → fetch k = some c →
      poll_for_code fetch timeout interval = ⟨k, k - 1, some c⟩) := by
  refine ⟨?_, ?_, ?_⟩
  · intro h
    unfold poll_for_code
    have hmax : max 1 (timeout / interval) = (max 1 (timeout / interval) - 1) + 1 := by omega
    rw [hmax, poll_attempts_all_none fetch _ 1 h]
    simp
  · intro h
    unfold poll_for_code
    have h12 : max 1 (12 / 4) = 2 + 1 := by decide
    rw [h12, poll_attempts_all_none fetch 2 1 h]
  · intro k c hk1 hkmax hnone hsome
    unfold poll_for_code
    apply poll_attempts_first_some fetch k _ 1 c hk1 hkmax
    · intro j hj1 hj2; exact hnone j hj1 (by omega)
    · have : 1 + (k - 1) = k := by omega
      rw [this]; exact hsome

/-- C2 witness: concrete instantiation of `poll_for_code_spec` at
`timeout = 12`, `interval = 4` with an always-failing fetch. -/
theorem poll_for_code_spec_witness :
    0 < 4 ∧
    (((∀ k, (fun _ : Nat => (none : Option String)) k = none) →
      poll_for_code (fun _ => none) 12 4 =
        ⟨max 1 (12 / 4), max 1 (12 / 4) - 1, none⟩) ∧
    ((∀ k, (fun _ : Nat => (none : Option String)) k = none) →
      poll_for_code (fun _ => none) 12 4 = ⟨3, 2, none⟩) ∧
    (∀ k c, 1 ≤ k → k ≤ max 1 (12 / 4) →
      (∀ j, 1 ≤ j → j < k → (fun _ : Nat => (none : Option String)) j = none) →
      (fun _ : Nat => (none : Option String)) k = some c →
      poll_for_code (fun _ => none) 12 4 = ⟨k, k - 1, some c⟩)) :=
  ⟨by decide, poll_for_code_spec (fun _ => none) 12 4 (by decide)⟩

/-! ### core/freemail_client.py : requests, auth fallback, registration -/

/-- Association list modelling a Python dict of string keys and values
(headers / query params). Insertion order is kept; key lookup takes the
first binding. -/
abbrev KVList := List (String × String)

/-- Key membership test (`key in dict`). -/
def kvHas (l : KVList) (k : String) : Bool := l.any (fun p => p.1 == k)

/-- Key lookup (`dict.get(key)`). -/
def kvGet (l : KVList) (k : String) : Option String :=
  (l.find? (fun p => p.1 == k)).map (fun p => p.2)

/-- Model of `dict.setdefault(key, value)`: insert only when absent. -/
def setdefault (l : KVList) (k v : String) : KVList :=
  if kvHas l k then l else l ++ [(k, v)]

/-- One HTTP request as handed to the transport layer by `_request`
(freemail_client.py lines 45-85): method, url, final headers and final
query params (`none` = no `params` kwarg). -/
structure SentRequest where
  method : String
  url : String
  headers : KVList
  params : Option KVList
deriving DecidableEq, Repr

/-- Model of a response body as probed by `register_account`:
`empty` (no content, `res.json()` is skipped), `invalid` (`res.json()`
raises), or a JSON object carrying its `email` / `mailbox` fields. -/
inductive RespBody where
  | empty
  | invalid
  | jsonFields (email mailbox : Option String)
deriving DecidableEq, Repr

/-- Model of an HTTP response. -/
structure Response where
  status : Nat
  body : RespBody
deriving DecidableEq, Repr

/-- Header/param assembly of `_request` (freemail_client.py lines 45-60):
when a JWT token is configured, `Authorization` and `X-Admin-Token` headers
are set (without overriding caller-provided values), and when
`use_admin_token_query` is set, `admin_token` is additionally set-defaulted
into the query params. -/
def build_sent (jwt : String) (useQuery : Bool) (method url : String)
    (headers0 : KVList) (params0 : Option KVList) : SentRequest :=
  if jwt ≠ "" then
    ⟨method, url,
      setdefault (setdefault headers0 "Authorization" ("Bearer " ++ jwt)) "X-Admin-Token" jwt,
      if useQuery then some (setdefault (params0.getD []) "admin_token" jwt) else params0⟩
  else ⟨method, url, headers0, params0⟩

/-- Embedding of `_request_with_auth_fallback` (freemail_client.py lines
87-96) over an abstract transport (`.error` = the underlying request
raised, re-raised by `_request` after logging). Returns the list of
requests actually sent plus the final outcome. -/
def request_with_auth_fallback (jwt : String)
    (transport : SentRequest → Except Unit Response)
    (method url : String) (headers0 : KVList) (params0 : Option KVList) :
    List SentRequest × Except Unit Response :=
  match transport (build_sent jwt false method url headers0 params0) with
  | .error e => ([build_sent jwt false method url headers0 params0], .error e)
  | .ok r1 =>
    if (r1.status = 401 ∨ r1.status = 403) ∧ jwt ≠ "" then
      ([build_sent jwt false method url headers0 params0,
        build_sent jwt true method url headers0 params0],
       transport (build_sent jwt true method url headers0 params0))
    else ([build_sent jwt false method url headers0 params0], .ok r1)

/-! #### C3 helper lemmas -/

lemma kvGet_setdefault_self {l : KVList} {k : String} (v : String)
    (h : kvHas l k = false) : kvGet (setdefault l k v) k = some v := by
  unfold setdefault
  rw [h]
  rw [if_neg (by decide : ¬ (false = true))]
  unfold kvGet
  rw [List.find?_append]
  have hnone : l.find? (fun p => p.1 == k) = none := by
    rw [List.find?_eq_none]
    intro p hp hcon
    have hany : l.any (fun p => p.1 == k) = true := List.any_eq_true.mpr ⟨p, hp, hcon⟩
    unfold kvHas at h
    rw [h] at hany
    exact Bool.false_ne_true hany
  rw [hnone]
  simp

lemma kvGet_setdefault_ne {l : KVList} {k k' : String} (v : String) (hk : k' ≠ k) :
    kvGet (setdefault l k v) k' = kvGet l k' := by
  unfold setdefault
  by_cases h : kvHas l k
  · rw [if_pos h]
  · rw [if_neg h]
    unfold kvGet
    rw [List.find?_append]
    have hkk : (k == k') = false := beq_eq_false_iff_ne.mpr (fun heq => hk heq.symm)
    have hlast : ([(k, v)] : KVList).find? (fun p => p.1 == k') = none := by
      simp [List.find?, hkk]
    rw [hlast]
    cases l.find? (fun p => p.1 == k') <;> simp

lemma kvHas_append_single_ne {l : KVList} {k k' v : String} (h1 : kvHas l k' = false)
    (hk : k ≠ k') : kvHas (l ++ [(k, v)]) k' = false := by
  unfold kvHas at *
  simp only [List.any_append, Bool.or_eq_false_iff]
  refine ⟨h1, ?_⟩
  simp [beq_eq_false_iff_ne, hk]

/-- C3: per call to `_request_with_auth_fallback`, at most two underlying
requests are sent (never more, whatever the second response is); the first
request carries the credential only in the `Authorization` and
`X-Admin-Token` headers (its query params are passed through unchanged);
a second request is sent if and only if a credential is configured and the
first request got a response with status 401 or 403; and the second
request additionally carries the credential as the `admin_token` query
parameter, its response becoming the final outcome. -/
theorem request_with_auth_fallback_spec (jwt method url : String) (headers0 : KVList)
    (params0 : Option KVList) (transport : SentRequest → Except Unit Response) :
    (request_with_auth_fallback jwt transport method url headers0 params0).1.length ≤ 2 ∧
    ((request_with_auth_fallback jwt transport method url headers0 params0).1.head? =
      some (build_sent jwt false method url headers0 params0)) ∧
    (jwt ≠ "" → kvHas headers0 "Authorization" = false →
      kvHas headers0 "X-Admin-Token" = false →
      kvGet (build_sent jwt false method url headers0 params0).headers "Authorization" =
          some ("Bearer " ++ jwt) ∧
        kvGet (build_sent jwt false method url headers0 params0).headers "X-Admin-Token" =
          some jwt ∧
        (build_sent jwt false method url headers0 params0).params = params0) ∧
    ((request_with_auth_fallback jwt transport method url headers0 params0).1.length = 2 ↔
      jwt ≠ "" ∧ ∃ r1, transport (build_sent jwt false method url headers0 params0) = .ok r1 ∧
        (r1.status = 401 ∨ r1.status = 403)) ∧
    (∀ r1, jwt ≠ "" →
      transport (build_sent jwt false method url headers0 params0) = .ok r1 →
      (r1.status = 401 ∨ r1.status = 403) →
      request_with_auth_fallback jwt transport method url headers0 params0 =
        ([build_sent jwt false method url headers0 params0,
          build_sent jwt true method url headers0 params0],
         transport (build_sent jwt true method url headers0 params0)) ∧
      ((∀ ps, params0 = some ps → kvHas ps "admin_token" = false) →
        ∃ qs, (build_sent jwt true method url headers0 params0).params = some qs ∧
          kvGet qs "admin_token" = some jwt)) := by
  refine ⟨?_, ?_, ?_, ?_, ?_⟩
  · cases htr : transport (build_sent jwt false method url headers0 params0) with
    | error e => simp only [request_with_auth_fallback, htr, List.length_singleton]; omega
    | ok r1 =>
      by_cases hc : (r1.status = 401 ∨ r1.status = 403) ∧ jwt ≠ ""
      · simp only [request_with_auth_fallback, htr, if_pos hc]
        simp
      · simp only [request_with_auth_fallback, htr, if_neg hc]
        simp
  · cases htr : transport (build_sent jwt false method url headers0 params0) with
    | error e => simp only [request_with_auth_fallback, htr]; rfl
    | ok r1 =>
      by_cases hc : (r1.status = 401 ∨ r1.status = 403) ∧ jwt ≠ ""
      · simp only [request_with_auth_fallback, htr, if_pos hc]; rfl
      · simp only [request_with_auth_fallback, htr, if_neg hc]; rfl
  · intro hjwt hA hX
    unfold build_sent
    rw [if_pos hjwt]
    refine ⟨?_, ?_, rfl⟩
    · rw [kvGet_setdefault_ne jwt (by decide : "Authorization" ≠ "X-Admin-Token")]
      exact kvGet_setdefault_self _ hA
    · apply kvGet_setdefault_self
      unfold setdefault
      rw [hA, if_neg (by decide : ¬ (false = true))]
      exact kvHas_append_single_ne hX (by decide)
  · cases htr : transport (build_sent jwt false method url headers0 params0) with
    | error e =>
      simp only [request_with_auth_fallback, htr, List.length_singleton]
      constructor
      · intro h12; omega
      · rintro ⟨hjwt, r1, hr1, hst⟩
        exact Except.noConfusion hr1
    | ok r1 =>
      by_cases hc : (r1.status = 401 ∨ r1.status = 403) ∧ jwt ≠ ""
      · simp only [request_with_auth_fallback, htr, if_pos hc]
        constructor
        · intro _
          exact ⟨hc.2, r1, rfl, hc.1⟩
        · intro _; rfl
      · simp only [request_with_auth_fallback, htr, if_neg hc, List.length_singleton]
        constructor
        · intro h12; omega
        · rintro ⟨hjwt, r1', hr1', hst⟩
          cases hr1'
          exact absurd ⟨hst, hjwt⟩ hc
  · intro r1 hjwt htr hst
    constructor
    · simp only [request_with_auth_fallback, htr, if_pos (And.intro hst hjwt)]
    · intro hP
      refine ⟨setdefault (params0.getD []) "admin_token" jwt, ?_, ?_⟩
      · unfold build_sent
        rw [if_pos hjwt]
        simp
      · apply kvGet_setdefault_self
        cases hps : params0 with
        | none => rfl
        | some ps => simpa using hP ps hps

/-- C3 witness: a transport that answers 401 to the header-only request and
200 once `admin_token` appears in the query; the hypotheses of the
conditional parts of `request_with_auth_fallback_spec` are discharged
at this concrete input. -/
theorem request_with_auth_fallback_spec_witness :
    request_with_auth_fallback "tok"
        (fun r => if r.params = none then .ok ⟨401, .empty⟩ else .ok ⟨200, .empty⟩)
        "GET" "u" [] none =
      ([build_sent "tok" false "GET" "u" [] none,
        build_sent "tok" true "GET" "u" [] none],
       .ok ⟨200, .empty⟩) ∧
    (kvGet (build_sent "tok" false "GET" "u" [] none).headers "Authorization" =
        some ("Bearer " ++ "tok") ∧
      kvGet (build_sent "tok" false "GET" "u" [] none).headers "X-Admin-Token" = some "tok" ∧
      (build_sent "tok" false "GET" "u" [] none).params = none) ∧
    (∃ qs, (build_sent "tok" true "GET" "u" [] none).params = some qs ∧
      kvGet qs "admin_token" = some "tok") := by
  have h := request_with_auth_fallback_spec "tok" "GET" "u" [] none
    (fun r => if r.params = none then .ok ⟨401, .empty⟩ else .ok ⟨200, .empty⟩)
  have h5 := h.2.2.2.2 ⟨401, .empty⟩ (by decide) (by rfl) (Or.inl rfl)
  refine ⟨?_, h.2.2.1 (by decide) (by rfl) (by rfl), h5.2 (by intro ps hps; cases hps)⟩
  rw [h5.1]
  rfl

/-! ### core/freemail_client.py : register_account -/

/-- Python falsy-or on an optional string and a string default
(`a or default`): `None` and `""` are falsy. -/
def pyOrS (a : Option String) (default : String) : String :=
  match a with
  | some s => if s = "" then default else s
  | none => default

/-- Python falsy-or on two optional strings (`a or b`). -/
def pyOrOpt (a b : Option String) : Option String :=
  match a with
  | some s => if s = "" then b else some s
  | none => b

/-- Python truthiness of an optional string (`if x:`). -/
def truthyOpt : Option String → Bool
  | some s => s != ""
  | none => false

/-- Body handling of `register_account` (line 123):
`data = res.json() if res.content else {}`, then `data.get("email")` /
`data.get("mailbox")`. `.error` models `res.json()` raising on an invalid
body. -/
def json_of_body : RespBody → Except Unit (Option String × Option String)
  | .empty => .ok (none, none)
  | .invalid => .error ()
  | .jsonFields e m => .ok (e, m)

/-- Query params built by `register_account` (lines 101-103): `domain` is
added only when truthy. -/
def generate_params (domain : Option String) : KVList :=
  match domain with
  | some d => if d = "" then [] else [("domain", d)]
  | none => []

/-- Embedding of the method loop of `register_account` (lines 108-116):
`for method in ("GET", "POST")` with `break` on any status outside
{404, 405}; an exception from the GET attempt propagates (to the caller's
`except`) without trying POST. -/
def try_methods (f : String → List SentRequest × Except Unit Response) :
    List SentRequest × Except Unit Response :=
  match (f "GET").2 with
  | .error e => ((f "GET").1, .error e)
  | .ok res =>
    if res.status ≠ 404 ∧ res.status ≠ 405 then ((f "GET").1, .ok res)
    else ((f "GET").1 ++ (f "POST").1, (f "POST").2)


/-- Method loop of `register_account` instantiated with its actual request
function: GET then POST against `{base_url}/api/generate` through the auth
fallback, with the caller's params. -/
def register_tm (jwt base_url : String)
    (transport : SentRequest → Except Unit Response) (domain : Option String) :
    List SentRequest × Except Unit Response :=
  try_methods (fun m =>
    request_with_auth_fallback jwt transport m (base_url ++ "/api/generate") []
      (some (generate_params domain)))

/-- Embedding of `register_account` (freemail_client.py lines 98-142).
Input `email0` is the mailbox stored on the client before the call
(`self.email`); the result is the returned boolean, the mailbox stored
after the call, and the trace of underlying requests. The outer
`try/except` is the toplevel `match`: any propagated exception yields
`(false, email0)`. -/
def register_account (jwt base_url : String)
    (transport : SentRequest → Except Unit Response)
    (domain : Option String) (email0 : Option String) :
    Bool × Option String × List SentRequest :=
  match (register_tm jwt base_url transport domain).2 with
  | .error _ => (false, email0, (register_tm jwt base_url transport domain).1)
  | .ok res =>
    if res.status = 200 ∨ res.status = 201 then
      match json_of_body res.body with
      | .error _ => (false, email0, (register_tm jwt base_url transport domain).1)
      | .ok (e, mbx) =>
        if truthyOpt (pyOrOpt e mbx) then
          (true, pyOrOpt e mbx, (register_tm jwt base_url transport domain).1)
        else (false, email0, (register_tm jwt base_url transport domain).1)
    else (false, email0, (register_tm jwt base_url transport domain).1)

lemma register_account_trace (jwt base_url : String)
    (transport : SentRequest → Except Unit Response) (domain email0 : Option String) :
    (register_account jwt base_url transport domain email0).2.2 =
      (register_tm jwt base_url transport domain).1 := by
  cases htm : (register_tm jwt base_url transport domain).2 with
  | error e => simp only [register_account, htm]
  | ok res =>
    by_cases h20 : res.status = 200 ∨ res.status = 201
    · simp only [register_account, htm, if_pos h20]
      match hj : json_of_body res.body with
      | .error e => simp only [hj]
      | .ok (e, mbx) =>
        simp only [hj]
        by_cases ht : truthyOpt (pyOrOpt e mbx) = true
        · rw [if_pos ht]
        · rw [if_neg ht]
    · simp only [register_account, htm, if_neg h20]

lemma register_tm_trace (jwt base_url : String)
    (transport : SentRequest → Except Unit Response) (domain : Option String) :
    (register_tm jwt base_url transport domain).1 =
      (request_with_auth_fallback jwt transport "GET" (base_url ++ "/api/generate") []
          (some (generate_params domain))).1 ++
        (match (request_with_auth_fallback jwt transport "GET" (base_url ++ "/api/generate")
            [] (some (generate_params domain))).2 with
          | .ok r =>
            if r.status = 404 ∨ r.status = 405 then
              (request_with_auth_fallback jwt transport "POST" (base_url ++ "/api/generate")
                [] (some (generate_params domain))).1
            else []
          | .error _ => []) := by
  unfold register_tm try_methods
  cases hg : (request_with_auth_fallback jwt transport "GET" (base_url ++ "/api/generate")
      [] (some (generate_params domain))).2 with
  | error e => simp [hg]
  | ok res =>
    by_cases hs : res.status ≠ 404 ∧ res.status ≠ 405
    · have hnor : ¬ (res.status = 404 ∨ res.status = 405) := by
        rcases hs with ⟨h4, h5⟩
        rintro (h | h) <;> omega
      simp only [hg, if_pos hs, if_neg hnor]
      simp
    · have hor : res.status = 404 ∨ res.status = 405 := by
        by_contra hcon
        push_neg at hcon
        exact hs ⟨hcon.1, hcon.2⟩
      simp only [hg, if_neg hs, if_pos hor]

/-- C5: `register_account` never propagates a transport exception (a raise
anywhere yields `false` with the stored mailbox untouched); it tries GET
then POST against the generate endpoint, running the POST round if and
only if the GET round produced a response with status 404 or 405; it
returns `true` exactly when the final response has status 200 or 201 and
its JSON body has a non-empty `email` or `mailbox` field; and a final
401/403 response yields `false`. -/
theorem register_account_spec (jwt base_url : String)
    (transport : SentRequest → Except Unit Response)
    (domain email0 : Option String) :
    ((register_account jwt base_url transport domain email0).2.2 =
      (request_with_auth_fallback jwt transport "GET" (base_url ++ "/api/generate") []
          (some (generate_params domain))).1 ++
        (match (request_with_auth_fallback jwt transport "GET" (base_url ++ "/api/generate")
            [] (some (generate_params domain))).2 with
          | .ok r =>
            if r.status = 404 ∨ r.status = 405 then
              (request_with_auth_fallback jwt transport "POST" (base_url ++ "/api/generate")
                [] (some (generate_params domain))).1
            else []
          | .error _ => [])) ∧
    ((register_account jwt base_url transport domain email0).1 = true ↔
      ∃ r e m,
        (register_tm jwt base_url transport domain).2 = .ok r ∧
        (r.status = 200 ∨ r.status = 201) ∧
        json_of_body r.body = .ok (e, m) ∧ truthyOpt (pyOrOpt e m) = true) ∧
    ((register_tm jwt base_url transport domain).2 = .error () →
      (register_account jwt base_url transport domain email0).1 = false ∧
      (register_account jwt base_url transport domain email0).2.1 = email0) ∧
    (∀ r, (register_tm jwt base_url transport domain).2 = .ok r →
      (r.status = 401 ∨ r.status = 403) →
      (register_account jwt base_url transport domain email0).1 = false) := by
  refine ⟨?_, ?_, ?_, ?_⟩
  · rw [register_account_trace, register_tm_trace]
  · cases htm : (register_tm jwt base_url transport domain).2 with
    | error e =>
      simp only [register_account, htm, Bool.false_eq_true, false_iff]
      rintro ⟨r, e', m, hok, _⟩
      exact Except.noConfusion hok
    | ok res =>
      by_cases h20 : res.status = 200 ∨ res.status = 201
      · simp only [register_account, htm, if_pos h20]
        match hj : json_of_body res.body with
        | .error e =>
          simp only [hj, Bool.false_eq_true, false_iff]
          rintro ⟨r, e', m, hok, h20', hj', ht'⟩
          cases hok
          rw [hj] at hj'
          exact Except.noConfusion hj'
        | .ok (e, mbx) =>
          simp only [hj]
          by_cases ht : truthyOpt (pyOrOpt e mbx) = true
          · rw [if_pos ht]
            simp only [true_iff]
            exact ⟨res, e, mbx, rfl, h20, hj, ht⟩
          · rw [if_neg ht]
            simp only [Bool.false_eq_true, false_iff]
            rintro ⟨r, e', m, hok, h20', hj', ht'⟩
            cases hok
            rw [hj] at hj'
            cases hj'
            exact ht ht'
      · simp only [register_account, htm, if_neg h20, Bool.false_eq_true, false_iff]
        rintro ⟨r, e', m, hok, h20', _⟩
        cases hok
        exact h20 h20'
  · intro herr
    simp [register_account, herr]
  · intro r hok hauth
    have hnot : ¬ (r.status = 200 ∨ r.status = 201) := by
      rcases hauth with h | h <;> rintro (h' | h') <;> omega
    simp only [register_account, hok, if_neg hnot]

/-- C5 witness: a transport whose GET answer is 404 and whose POST answer
is 201 with a mailbox field; the conditional parts of
`register_account_spec` are discharged at this concrete input. -/
theorem register_account_spec_witness :
    (register_account "tok" "http://s"
        (fun r => if r.method = "GET" then .ok ⟨404, .empty⟩
          else .ok ⟨201, .jsonFields none (some "a@b.c")⟩)
        none none).1 = true ∧
    (register_account "tok" "http://s"
        (fun r => if r.method = "GET" then .ok ⟨404, .empty⟩
          else .ok ⟨201, .jsonFields none (some "a@b.c")⟩)
        none none).2.1 = some "a@b.c" := by
  have h := (register_account_spec "tok" "http://s"
    (fun r => if r.method = "GET" then .ok ⟨404, .empty⟩
      else .ok ⟨201, .jsonFields none (some "a@b.c")⟩) none none).2.1
  constructor
  · exact h.mpr ⟨⟨201, .jsonFields none (some "a@b.c")⟩, none, some "a@b.c",
      rfl, Or.inr rfl, rfl, by decide⟩
  · decide

/-- C10: `register_account` is atomic with respect to the stored mailbox:
whenever it returns `false` the stored mailbox is exactly what it was
before the call, and whenever it returns `true` the stored mailbox is a
non-empty (truthy) address. -/
theorem register_account_email_atomic (jwt base_url : String)
    (transport : SentRequest → Except Unit Response)
    (domain email0 : Option String) :
    ((register_account jwt base_url transport domain email0).1 = false →
      (register_account jwt base_url transport domain email0).2.1 = email0) ∧
    ((register_account jwt base_url transport domain email0).1 = true →
      truthyOpt (register_account jwt base_url transport domain email0).2.1 = true) := by
  cases htm : (register_tm jwt base_url transport domain).2 with
  | error e => simp [register_account, htm]
  | ok res =>
    by_cases h20 : res.status = 200 ∨ res.status = 201
    · match hj : json_of_body res.body with
      | .error e => simp [register_account, htm, if_pos h20, hj]
      | .ok (e, mbx) =>
        by_cases ht : truthyOpt (pyOrOpt e mbx) = true
        · simp [register_account, htm, if_pos h20, hj, if_pos ht, ht]
        · simp [register_account, htm, if_pos h20, hj, if_neg ht]
    · simp [register_account, htm, if_neg h20]

/-- C10 witness: the implications of `register_account_email_atomic` are
discharged at concrete transports (a 403 failure keeping the old mailbox,
and a 201 success storing a truthy one). -/
theorem register_account_email_atomic_witness :
    (register_account "tok" "http://s" (fun _ => .ok ⟨403, .empty⟩) none (some "old@x.y")).2.1 =
      some "old@x.y" ∧
    truthyOpt (register_account "tok" "http://s"
      (fun r => if r.method = "GET" then .ok ⟨404, .empty⟩
        else .ok ⟨201, .jsonFields none (some "a@b.c")⟩) none none).2.1 = true := by
  constructor
  · exact (register_account_email_atomic "tok" "http://s" (fun _ => .ok ⟨403, .empty⟩)
      none (some "old@x.y")).1 (by decide)
  · exact (register_account_email_atomic "tok" "http://s"
      (fun r => if r.method = "GET" then .ok ⟨404, .empty⟩
        else .ok ⟨201, .jsonFields none (some "a@b.c")⟩) none none).2 (by decide)

/-! ### core/freemail_client.py : email ordering in fetch_verification_code -/

/-- Sort key used at freemail_client.py line 248: `item[1] or datetime.min`.
Naive datetimes are encoded order-isomorphically as naturals (e.g.
microseconds since 0001-01-01T00:00:00), so `datetime.min` — itself a
representable datetime value — is encoded as `0`, and a missing parse
result is replaced by it. -/
def sortKey (t : Option Nat) : Nat := t.getD 0

/-- Comparison underlying the descending sort of
`emails_with_time.sort(key=..., reverse=True)`: `a` may come before `b`
when `sortKey b ≤ sortKey a`. -/
def orderR {α : Type} (a b : α × Option Nat) : Prop := sortKey b.2 ≤ sortKey a.2

instance {α : Type} : DecidableRel (orderR (α := α)) :=
  fun a b => Nat.decLe (sortKey b.2) (sortKey a.2)

instance {α : Type} : IsTotal (α × Option Nat) orderR :=
  ⟨fun a b => Nat.le_total (sortKey b.2) (sortKey a.2)⟩

instance {α : Type} : IsTrans (α × Option Nat) orderR :=
  ⟨fun _ _ _ hab hbc => Nat.le_trans hbc hab⟩

/-- Embedding of the reordering step of `fetch_verification_code`
(freemail_client.py lines 245-249): pair each email with its parsed time;
when at least one email has a parseable time, sort the pairs descending by
`sortKey` and keep the emails, otherwise leave the list unchanged. CPython
`list.sort(key=..., reverse=True)` is a stable descending sort, and the
stable descending sort of a list is unique, so `List.insertionSort` with
the total reflexive comparison `orderR` computes the same list. -/
def order_by_time {α : Type} (parse : α → Option Nat) (emails : List α) : List α :=
  let ewt := emails.map (fun e => (e, parse e))
  if ewt.any (fun p => p.2.isSome) then
    (List.insertionSort orderR ewt).map (fun p => p.1)
  else emails

/-- C4 counterexample: an email whose parsed timestamp is exactly
`datetime.min` (encoded `0`, e.g. an ISO `created_at` of
`0001-01-01T00:00:00` parsed in a UTC environment) ties with the
`datetime.min` sort key substituted for untimestamped emails, so the
stable sort leaves the untimestamped email 0 in front of the timestamped
email 1: the ordering does not place all timestamped emails before all
untimestamped ones. -/
theorem order_by_time_min_counterexample :
    ((fun e => if e = 1 then (some 0 : Option Nat) else none) 1).isSome = true ∧
    ((fun e => if e = 1 then (some 0 : Option Nat) else none) 0).isSome = false ∧
    order_by_time (fun e => if e = 1 then (some 0 : Option Nat) else none) [0, 1] = [0, 1] := by
  refine ⟨rfl, rfl, ?_⟩
  rfl

/-- C4 (amended): provided no email's parsed timestamp equals the minimal
representable instant `datetime.min` (the sort key substituted for
unparseable timestamps), the internal ordering of
`fetch_verification_code` is descending by parsed time, places every
timestamped email before every untimestamped one, keeps the untimestamped
emails in their original relative order, and is a permutation of the
input. -/
theorem order_by_time_spec {α : Type} (parse : α → Option Nat)
    (emails : List α)
    (hpos : ∀ e ∈ emails, ∀ t, parse e = some t → 0 < t) :
    List.Pairwise (fun a b => sortKey (parse b) ≤ sortKey (parse a))
      (order_by_time parse emails) ∧
    List.Pairwise (fun a b => parse a = none → parse b = none)
      (order_by_time parse emails) ∧
    ((order_by_time parse emails).filter (fun e => (parse e).isNone) =
      emails.filter (fun e => (parse e).isNone)) ∧
    List.Perm (order_by_time parse emails) emails := by
  unfold order_by_time
  by_cases hany : (emails.map (fun e => (e, parse e))).any (fun p => p.2.isSome)
  case neg =>
    rw [if_neg hany]
    have hall : ∀ e ∈ emails, parse e = none := by
      intro e he
      rcases hopt : parse e with _ | t
      · rfl
      · exfalso
        apply hany
        refine List.any_eq_true.mpr ⟨(e, parse e), List.mem_map_of_mem _ he, ?_⟩
        rw [hopt]; rfl
    refine ⟨?_, ?_, rfl, List.Perm.refl emails⟩
    · exact List.pairwise_of_forall_mem_list
        (fun a ha b hb => by rw [hall a ha, hall b hb])
    · exact List.pairwise_of_forall_mem_list
        (fun a ha b hb => fun _ => hall b hb)
  case pos =>
    rw [if_pos hany]
    set ewt := emails.map (fun e => (e, parse e)) with hewt
    have hmem_snd : ∀ p ∈ ewt, p.2 = parse p.1 := by
      intro p hp
      rw [hewt] at hp
      rcases List.mem_map.mp hp with ⟨e, _, hpe⟩
      rw [← hpe]
    have hms_mem : ∀ p ∈ List.insertionSort orderR ewt, p ∈ ewt :=
      fun p hp => (List.mem_insertionSort orderR).mp hp
    have hperm : List.Perm (List.insertionSort orderR ewt) ewt :=
      List.perm_insertionSort orderR ewt
    have hmap_fst : ewt.map (fun p => p.1) = emails := by
      rw [hewt, List.map_map]
      exact List.map_id'' (fun _ => rfl) emails
    have hsorted : (List.insertionSort orderR ewt).Pairwise orderR :=
      List.sorted_insertionSort orderR ewt
    have hperm_res : List.Perm ((List.insertionSort orderR ewt).map (fun p => p.1)) emails := by
      rw [← hmap_fst]
      exact hperm.map _
    have hpair1 : List.Pairwise (fun a b => sortKey (parse b) ≤ sortKey (parse a))
        ((List.insertionSort orderR ewt).map (fun p => p.1)) := by
      rw [List.pairwise_map]
      refine List.Pairwise.imp_of_mem ?_ hsorted
      intro p q hp hq hle'
      have h1 := hmem_snd p (hms_mem p hp)
      have h2 := hmem_snd q (hms_mem q hq)
      unfold orderR at hle'
      rw [← h1, ← h2]
      exact hle'
    refine ⟨hpair1, ?_, ?_, hperm_res⟩
    · refine List.Pairwise.imp_of_mem ?_ hpair1
      intro a b ha hb hkey hnone
      have hbmem : b ∈ emails := (hperm_res.mem_iff).mp hb
      rcases hb' : parse b with _ | t
      · rfl
      · exfalso
        have hbt := hpos b hbmem t hb'
        rw [hnone, hb'] at hkey
        simp only [sortKey, Option.getD_none, Option.getD_some] at hkey
        omega
    · -- stability of the untimestamped block
      have hpw : (ewt.filter (fun p => p.2.isNone)).Pairwise orderR := by
        refine List.pairwise_of_forall_mem_list ?_
        intro a ha b hb
        have ha2 : a.2.isNone := (List.mem_filter.mp ha).2
        have hb2 : b.2.isNone := (List.mem_filter.mp hb).2
        unfold orderR sortKey
        rw [Option.isNone_iff_eq_none.mp ha2, Option.isNone_iff_eq_none.mp hb2]
      have hsub : List.Sublist (ewt.filter (fun p => p.2.isNone))
          (List.insertionSort orderR ewt) :=
        List.sublist_insertionSort hpw (List.filter_sublist ewt)
      have hsubf : List.Sublist (ewt.filter (fun p => p.2.isNone))
          ((List.insertionSort orderR ewt).filter (fun p => p.2.isNone)) := by
        have h := List.Sublist.filter (fun p : α × Option Nat => p.2.isNone) hsub
        rwa [List.filter_filter, show
          (ewt.filter fun p => p.2.isNone && p.2.isNone) = ewt.filter (fun p => p.2.isNone)
          from List.filter_congr (fun p _ => by cases p.2 <;> rfl)] at h
      have hlen : ((List.insertionSort orderR ewt).filter (fun p => p.2.isNone)).length =
          (ewt.filter (fun p => p.2.isNone)).length :=
        ((hperm.filter _).length_eq)
      have hceq : ewt.filter (fun p => p.2.isNone) =
          (List.insertionSort orderR ewt).filter (fun p => p.2.isNone) :=
        hsubf.eq_of_length hlen.symm
      calc ((List.insertionSort orderR ewt).map (fun p => p.1)).filter
              (fun e => (parse e).isNone)
          = ((List.insertionSort orderR ewt).filter
              (fun p => ((parse p.1).isNone : Bool))).map (fun p => p.1) := by
            rw [List.filter_map]
            rfl
        _ = ((List.insertionSort orderR ewt).filter (fun p => p.2.isNone)).map
              (fun p => p.1) := by
            congr 1
            refine List.filter_congr ?_
            intro p hp
            rw [hmem_snd p (hms_mem p hp)]
        _ = (ewt.filter (fun p => p.2.isNone)).map (fun p => p.1) := by rw [hceq]
        _ = (ewt.filter (fun p => ((parse p.1).isNone : Bool))).map (fun p => p.1) := by
            congr 1
            refine List.filter_congr ?_
            intro p hp
            rw [hmem_snd p hp]
        _ = (ewt.map (fun p => p.1)).filter (fun e => (parse e).isNone) := by
            conv_rhs => rw [List.filter_map]
            rfl
        _ = emails.filter (fun e => (parse e).isNone) := by rw [hmap_fst]

/-- C4 witness: concrete instantiation of `order_by_time_spec` on a list
mixing timestamped (all later than the minimal instant) and untimestamped
emails. -/
theorem order_by_time_spec_witness :
    (∀ e ∈ ([1, 3, 2, 4] : List Nat), ∀ t,
      (fun e => if e = 1 then some 5 else if e = 2 then some 9 else (none : Option Nat)) e =
        some t → 0 < t) ∧
    (List.Pairwise (fun a b =>
        sortKey ((fun e => if e = 1 then some 5 else if e = 2 then some 9 else
          (none : Option Nat)) b) ≤
        sortKey ((fun e => if e = 1 then some 5 else if e = 2 then some 9 else
          (none : Option Nat)) a))
      (order_by_time (fun e => if e = 1 then some 5 else if e = 2 then some 9 else none)
        [1, 3, 2, 4]) ∧
    List.Pairwise (fun a b =>
        (fun e => if e = 1 then some 5 else if e = 2 then some 9 else
          (none : Option Nat)) a = none →
        (fun e => if e = 1 then some 5 else if e = 2 then some 9 else
          (none : Option Nat)) b = none)
      (order_by_time (fun e => if e = 1 then some 5 else if e = 2 then some 9 else none)
        [1, 3, 2, 4]) ∧
    ((order_by_time (fun e => if e = 1 then some 5 else if e = 2 then some 9 else none)
        [1, 3, 2, 4]).filter (fun e =>
          (((fun e => if e = 1 then some 5 else if e = 2 then some 9 else
            (none : Option Nat)) e).isNone : Bool)) =
      ([1, 3, 2, 4] : List Nat).filter (fun e =>
          (((fun e => if e = 1 then some 5 else if e = 2 then some 9 else
            (none : Option Nat)) e).isNone : Bool))) ∧
    List.Perm
      (order_by_time (fun e => if e = 1 then some 5 else if e = 2 then some 9 else none)
        [1, 3, 2, 4]) [1, 3, 2, 4]) :=
  ⟨by decide,
    order_by_time_spec (fun e => if e = 1 then some 5 else if e = 2 then some 9 else none)
      [1, 3, 2, 4] (by decide)⟩

/-! ### core/freemail_client.py : _parse_email_time -/

/-- Model of a raw timestamp value as found in an email dict: a JSON
number (int or float, modelled as an exact rational; the claims evaluated
here use values exactly representable as floats, and the magnitude /
range conditions involved are insensitive to float rounding), a string,
or any other value. -/
inductive RawTime where
  | num (q : Rat)
  | str (s : String)
  | other
deriving DecidableEq

/-- The six timestamp keys probed by `_parse_email_time`
(freemail_client.py lines 198-205); `none` = key absent or null. -/
structure EmailTimes where
  created_at : Option RawTime := none
  createdAt : Option RawTime := none
  received_at : Option RawTime := none
  receivedAt : Option RawTime := none
  sent_at : Option RawTime := none
  sentAt : Option RawTime := none
deriving DecidableEq

/-- Key resolution loop (lines 207-214): first non-null value in key
order. -/
def firstRawTime (e : EmailTimes) : Option RawTime :=
  (((((e.created_at.orElse fun _ => e.createdAt).orElse fun _ => e.received_at).orElse
    fun _ => e.receivedAt).orElse fun _ => e.sent_at).orElse fun _ => e.sentAt)

/-- Lower bound of the platform-supported `datetime.fromtimestamp` range:
epoch seconds of 0001-01-01T00:00:00 UTC (year 1). -/
def TS_MIN : Rat := -62135596800

/-- Upper bound of the platform-supported `datetime.fromtimestamp` range:
epoch seconds of 9999-12-31T23:59:59 UTC. -/
def TS_MAX : Rat := 253402300799

/-- Model of `datetime.fromtimestamp(ts).astimezone().replace(tzinfo=None)`
(lines 220 and 230): in a fixed environment this is a strictly monotone
injection of the epoch timestamp, so instants are represented by the
timestamp itself. Outside the platform-supported range (years 1-9999; the
exact cutoff differs from `TS_MIN`/`TS_MAX` by less than a day depending
on the local offset, which no property proved here depends on)
`fromtimestamp` raises `OverflowError`/`OSError`/`ValueError`, modelled by
`.error`. -/
def fromtimestamp_local (q : Rat) : Except Unit Rat :=
  if TS_MIN ≤ q ∧ q ≤ TS_MAX then .ok q else .error ()

/-- Millisecond disambiguation (lines 218-219 and 228-229): values
strictly greater than 1e12 are epoch milliseconds and divided by 1000. -/
def scale_timestamp (q : Rat) : Rat :=
  if q > 1000000000000 then q / 1000 else q

/-- Model of `raw_time.strip()` (line 223) at character level: drop
whitespace from both ends (ASCII whitespace; no property proved here
depends on the non-ASCII differences from Python's `str.strip`). -/
def pyStrip (s : String) : String :=
  String.mk (((s.data.dropWhile Char.isWhitespace).reverse.dropWhile
    Char.isWhitespace).reverse)

/-- Numeric value of an all-digit string, as produced by `float(raw)` on a
string that passed `raw.isdigit()` (lines 227-229): the decimal value of
its digits (exact; `float` rounds values above 2^53, which affects neither
the magnitude test nor the range test for any input spoken about here). -/
def digitsToNat (cs : List Char) : Nat :=
  cs.foldl (fun n c => n * 10 + (c.toNat - 48)) 0

/-- Embedding of `_parse_email_time` (freemail_client.py lines 197-243).
`isoparse` is an oracle for the ISO branch (lines 232-241: fractional
truncation, `Z` replacement, `datetime.fromisoformat`, timezone
normalisation, all inside `try/except` returning `None` on failure); the
properties proved hold for every oracle. The numeric branches — both for
JSON numbers and for all-digit strings — have no `try/except` in the
source, so an out-of-range timestamp propagates the `fromtimestamp`
exception (`.error`). -/
def parse_email_time (isoparse : String → Option Rat) (e : EmailTimes) :
    Except Unit (Option Rat) :=
  match firstRawTime e with
  | none => .ok none
  | some (.num q) => (fromtimestamp_local (scale_timestamp q)).map some
  | some (.str s) =>
      let raw := pyStrip s
      if raw = "" then .ok none
      else if raw.data.all Char.isDigit then
        (fromtimestamp_local (scale_timestamp ((digitsToNat raw.data : Nat) : Rat))).map some
      else .ok (isoparse raw)
  | some .other => .ok none

/-- C6 counterexample: `_parse_email_time` can throw. On an email whose
`created_at` is the JSON number 10^21 (an unparseable timestamp: scaled to
10^18 epoch seconds, far beyond year 9999), the numeric branch calls
`datetime.fromtimestamp` outside its supported range with no surrounding
`try/except`, so the function raises instead of returning `None` (the
all-digit string "1000000000000000000000" takes the analogous digit-string
branch, covered by the last part of `parse_email_time_spec`). -/
theorem parse_email_time_throws_counterexample :
    parse_email_time (fun _ => none)
      { created_at := some (.num 1000000000000000000000) } = .error () := by
  have h1 : firstRawTime { created_at := some (.num 1000000000000000000000) } =
      some (.num 1000000000000000000000) := rfl
  simp only [parse_email_time, h1]
  have hscale : scale_timestamp 1000000000000000000000 = 1000000000000000000 := by
    unfold scale_timestamp
    rw [if_pos (by norm_num)]
    norm_num
  rw [hscale]
  have hft : fromtimestamp_local 1000000000000000000 = .error () := by
    unfold fromtimestamp_local
    rw [if_neg (by norm_num [TS_MIN, TS_MAX])]
  rw [hft]
  rfl

/-- C6 (amended): numeric values and all-digit numeric strings greater
than 1e12 are treated as epoch milliseconds by dividing by 1000 and values
at or below 1e12 as epoch seconds, so the millis input 1700000000000 —
whether a JSON number or the digit string "1700000000000" — and the
seconds input 1700000000 parse to the same instant; absent values,
empty/whitespace strings, non-digit strings the ISO branch cannot parse,
and non-string non-numeric values all yield `None` without throwing; but a
numeric or all-digit string input whose scaled value falls outside the
platform-supported datetime range raises instead of returning `None`. -/
theorem parse_email_time_spec (isoparse : String → Option Rat) (e : EmailTimes)
    (q : Rat) (s : String) :
    (firstRawTime e = some (.num q) → q > 1000000000000 →
      TS_MIN ≤ q / 1000 ∧ q / 1000 ≤ TS_MAX →
      parse_email_time isoparse e = .ok (some (q / 1000))) ∧
    (firstRawTime e = some (.num q) → q ≤ 1000000000000 →
      TS_MIN ≤ q ∧ q ≤ TS_MAX →
      parse_email_time isoparse e = .ok (some q)) ∧
    (parse_email_time isoparse { created_at := some (.num 1700000000000) } =
        .ok (some 1700000000) ∧
      parse_email_time isoparse { created_at := some (.num 1700000000) } =
        .ok (some 1700000000) ∧
      parse_email_time isoparse { created_at := some (.str "1700000000000") } =
        .ok (some 1700000000)) ∧
    (firstRawTime e = none → parse_email_time isoparse e = .ok none) ∧
    (firstRawTime e = some (.str s) → pyStrip s = "" →
      parse_email_time isoparse e = .ok none) ∧
    (firstRawTime e = some (.str s) → pyStrip s ≠ "" →
      ¬ ((pyStrip s).data.all Char.isDigit = true) →
      parse_email_time isoparse e = .ok (isoparse (pyStrip s))) ∧
    (firstRawTime e = some .other → parse_email_time isoparse e = .ok none) ∧
    (firstRawTime e = some (.num q) →
      ¬ (TS_MIN ≤ scale_timestamp q ∧ scale_timestamp q ≤ TS_MAX) →
      parse_email_time isoparse e = .error ()) ∧
    (firstRawTime e = some (.str s) → pyStrip s ≠ "" →
      (pyStrip s).data.all Char.isDigit = true →
      ((digitsToNat (pyStrip s).data : Nat) : Rat) > 1000000000000 →
      TS_MIN ≤ ((digitsToNat (pyStrip s).data : Nat) : Rat) / 1000 ∧
        ((digitsToNat (pyStrip s).data : Nat) : Rat) / 1000 ≤ TS_MAX →
      parse_email_time isoparse e =
        .ok (some (((digitsToNat (pyStrip s).data : Nat) : Rat) / 1000))) ∧
    (firstRawTime e = some (.str s) → pyStrip s ≠ "" →
      (pyStrip s).data.all Char.isDigit = true →
      ((digitsToNat (pyStrip s).data : Nat) : Rat) ≤ 1000000000000 →
      TS_MIN ≤ ((digitsToNat (pyStrip s).data : Nat) : Rat) ∧
        ((digitsToNat (pyStrip s).data : Nat) : Rat) ≤ TS_MAX →
      parse_email_time isoparse e =
        .ok (some ((digitsToNat (pyStrip s).data : Nat) : Rat))) ∧
    (firstRawTime e = some (.str s) → pyStrip s ≠ "" →
      (pyStrip s).data.all Char.isDigit = true →
      ¬ (TS_MIN ≤ scale_timestamp ((digitsToNat (pyStrip s).data : Nat) : Rat) ∧
        scale_timestamp ((digitsToNat (pyStrip s).data : Nat) : Rat) ≤ TS_MAX) →
      parse_email_time isoparse e = .error ()) := by
  refine ⟨?_, ?_, ⟨?_, ?_, ?_⟩, ?_, ?_, ?_, ?_, ?_, ?_, ?_, ?_⟩
  · intro hq hgt hrange
    simp only [parse_email_time, hq]
    have hscale : scale_timestamp q = q / 1000 := by
      unfold scale_timestamp
      rw [if_pos hgt]
    rw [hscale]
    have hft : fromtimestamp_local (q / 1000) = .ok (q / 1000) := by
      unfold fromtimestamp_local
      rw [if_pos hrange]
    rw [hft]
    rfl
  · intro hq hle hrange
    simp only [parse_email_time, hq]
    have hscale : scale_timestamp q = q := by
      unfold scale_timestamp
      rw [if_neg (not_lt.mpr hle)]
    rw [hscale]
    have hft : fromtimestamp_local q = .ok q := by
      unfold fromtimestamp_local
      rw [if_pos hrange]
    rw [hft]
    rfl
  · have h1 : firstRawTime { created_at := some (.num 1700000000000) } =
        some (.num 1700000000000) := rfl
    simp only [parse_email_time, h1]
    have hscale : scale_timestamp 1700000000000 = 1700000000 := by
      unfold scale_timestamp
      rw [if_pos (by norm_num)]
      norm_num
    rw [hscale]
    have hft : fromtimestamp_local 1700000000 = .ok 1700000000 := by
      unfold fromtimestamp_local
      rw [if_pos (by norm_num [TS_MIN, TS_MAX])]
    rw [hft]
    rfl
  · have h1 : firstRawTime { created_at := some (.num 1700000000) } =
        some (.num 1700000000) := rfl
    simp only [parse_email_time, h1]
    have hscale : scale_timestamp 1700000000 = 1700000000 := by
      unfold scale_timestamp
      rw [if_neg (by norm_num)]
    rw [hscale]
    have hft : fromtimestamp_local 1700000000 = .ok 1700000000 := by
      unfold fromtimestamp_local
      rw [if_pos (by norm_num [TS_MIN, TS_MAX])]
    rw [hft]
    rfl
  · have h1 : firstRawTime { created_at := some (.str "1700000000000") } =
        some (.str "1700000000000") := rfl
    simp only [parse_email_time, h1]
    rw [if_neg (by decide), if_pos (by decide)]
    have hn : digitsToNat (pyStrip "1700000000000").data = 1700000000000 := by decide
    rw [hn]
    have hcast : ((1700000000000 : Nat) : Rat) = 1700000000000 := by norm_num
    rw [hcast]
    have hscale : scale_timestamp 1700000000000 = 1700000000 := by
      unfold scale_timestamp
      rw [if_pos (by norm_num)]
      norm_num
    rw [hscale]
    have hft : fromtimestamp_local 1700000000 = .ok 1700000000 := by
      unfold fromtimestamp_local
      rw [if_pos (by norm_num [TS_MIN, TS_MAX])]
    rw [hft]
    rfl
  · intro hq
    simp only [parse_email_time, hq]
  · intro hq htrim
    simp only [parse_email_time, hq]
    rw [if_pos htrim]
  · intro hq htrim hdig
    simp only [parse_email_time, hq]
    rw [if_neg htrim, if_neg hdig]
  · intro hq
    simp only [parse_email_time, hq]
  · intro hq hrange
    simp only [parse_email_time, hq]
    have hft : fromtimestamp_local (scale_timestamp q) = .error () := by
      unfold fromtimestamp_local
      rw [if_neg hrange]
    rw [hft]
    rfl
  · intro hq htrim hdig hgt hrange
    simp only [parse_email_time, hq]
    rw [if_neg htrim, if_pos hdig]
    have hscale : scale_timestamp ((digitsToNat (pyStrip s).data : Nat) : Rat) =
        ((digitsToNat (pyStrip s).data : Nat) : Rat) / 1000 := by
      unfold scale_timestamp
      rw [if_pos hgt]
    rw [hscale]
    have hft : fromtimestamp_local (((digitsToNat (pyStrip s).data : Nat) : Rat) / 1000) =
        .ok (((digitsToNat (pyStrip s).data : Nat) : Rat) / 1000) := by
      unfold fromtimestamp_local
      rw [if_pos hrange]
    rw [hft]
    rfl
  · intro hq htrim hdig hle hrange
    simp only [parse_email_time, hq]
    rw [if_neg htrim, if_pos hdig]
    have hscale : scale_timestamp ((digitsToNat (pyStrip s).data : Nat) : Rat) =
        ((digitsToNat (pyStrip s).data : Nat) : Rat) := by
      unfold scale_timestamp
      rw [if_neg (not_lt.mpr hle)]
    rw [hscale]
    have hft : fromtimestamp_local ((digitsToNat (pyStrip s).data : Nat) : Rat) =
        .ok ((digitsToNat (pyStrip s).data : Nat) : Rat) := by
      unfold fromtimestamp_local
      rw [if_pos hrange]
    rw [hft]
    rfl
  · intro hq htrim hdig hrange
    simp only [parse_email_time, hq]
    rw [if_neg htrim, if_pos hdig]
    have hft : fromtimestamp_local
        (scale_timestamp ((digitsToNat (pyStrip s).data : Nat) : Rat)) = .error () := by
      unfold fromtimestamp_local
      rw [if_neg hrange]
    rw [hft]
    rfl

/-- C6 witness: the conditional parts of `parse_email_time_spec`
instantiated at the numeric millis input 1700000000000, at the all-digit
millis string "1700000000000", at the out-of-range digit string
"1000000000000000000000" (which raises), and at an email carrying no
timestamp key. -/
theorem parse_email_time_spec_witness :
    (firstRawTime { created_at := some (.num 1700000000000) } =
        some (.num 1700000000000) ∧
      (1700000000000 : Rat) > 1000000000000 ∧
      TS_MIN ≤ (1700000000000 : Rat) / 1000 ∧ (1700000000000 : Rat) / 1000 ≤ TS_MAX) ∧
    (parse_email_time (fun _ => none) { created_at := some (.num 1700000000000) } =
      .ok (some ((1700000000000 : Rat) / 1000))) ∧
    (firstRawTime { created_at := some (.str "1700000000000") } =
        some (.str "1700000000000") ∧
      pyStrip "1700000000000" ≠ "" ∧
      (pyStrip "1700000000000").data.all Char.isDigit = true ∧
      ((digitsToNat (pyStrip "1700000000000").data : Nat) : Rat) > 1000000000000) ∧
    (parse_email_time (fun _ => none) { created_at := some (.str "1700000000000") } =
      .ok (some (((digitsToNat (pyStrip "1700000000000").data : Nat) : Rat) / 1000))) ∧
    (parse_email_time (fun _ => none)
        { created_at := some (.str "1000000000000000000000") } = .error ()) ∧
    (firstRawTime {} = none ∧
      parse_email_time (fun _ => none) {} = .ok none) := by
  have hn : digitsToNat (pyStrip "1700000000000").data = 1700000000000 := by decide
  have hn2 : digitsToNat (pyStrip "1000000000000000000000").data =
      1000000000000000000000 := by decide
  refine ⟨⟨rfl, by norm_num, by norm_num [TS_MIN, TS_MAX]⟩, ?_,
    ⟨rfl, by decide, by decide, by rw [hn]; norm_num⟩, ?_, ?_, rfl, ?_⟩
  · exact (parse_email_time_spec (fun _ => none) { created_at := some (.num 1700000000000) }
      1700000000000 "").1 rfl (by norm_num) (by norm_num [TS_MIN, TS_MAX])
  · exact (parse_email_time_spec (fun _ => none)
      { created_at := some (.str "1700000000000") } 0 "1700000000000").2.2.2.2.2.2.2.2.1
      rfl (by decide) (by decide) (by rw [hn]; norm_num)
      (by rw [hn]; norm_num [TS_MIN, TS_MAX])
  · exact (parse_email_time_spec (fun _ => none)
      { created_at := some (.str "1000000000000000000000") } 0
      "1000000000000000000000").2.2.2.2.2.2.2.2.2.2 rfl (by decide) (by decide)
      (by rw [show scale_timestamp ((digitsToNat
            (pyStrip "1000000000000000000000").data : Nat) : Rat) =
          1000000000000000000 from by
            rw [hn2]
            unfold scale_timestamp
            rw [if_pos (by norm_num)]
            norm_num]
          norm_num [TS_MIN, TS_MAX])
  · exact (parse_email_time_spec (fun _ => none) {} 0 "").2.2.2.1 rfl

/-! ### core/message.py : parse_last_message and build_full_context_text -/

/-- Model of `str.lower()` (ASCII case; no property proved here depends on
non-ASCII case folding). -/
def pyLower (s : String) : String := String.mk (s.data.map Char.toLower)

/-- Model of a `tool_calls` entry's `arguments` (or a `function_call`'s):
either a string (rendered as-is) or any other JSON value (carrying its
`json.dumps(..., ensure_ascii=False)` rendering). -/
inductive ArgVal where
  | strArg (s : String)
  | otherArg (dump : String)
deriving DecidableEq, Repr

/-- The nested `function` object of a tool call. -/
structure ToolFn where
  name : Option String := none
  arguments : Option ArgVal := none
deriving DecidableEq, Repr

/-- One entry of `tool_calls`: `function` is `some _` exactly when the
`"function"` entry is a dict (anything else is treated as `{}` by the
source). -/
structure ToolCall where
  function : Option ToolFn := none
  name : Option String := none
  arguments : Option ArgVal := none
deriving DecidableEq, Repr

/-- A legacy `function_call` object. `arguments := none` models an absent
key (the source then renders the default `"{}"`). -/
structure FnCall where
  name : Option String := none
  arguments : Option ArgVal := none
deriving DecidableEq, Repr

/-- Model of the pydantic `Message` handed to `parse_last_message` /
`build_full_context_text`. -/
structure Message where
  role : Option String := none
  content : ContentVal := .noneVal
  name : Option String := none
  tool_call_id : Option String := none
  tool_calls : Option (List ToolCall) := none
  function_call : Option FnCall := none
deriving DecidableEq, Repr

/-- Arguments rendering of `format_tool_calls_text` (message.py lines
86-93): a string as-is, anything else as compact JSON, `{}` if absent. -/
def argsText (a : Option ArgVal) : String :=
  match a with
  | some (.strArg s) => s
  | some (.otherArg d) => d
  | none => "\x7b\x7d"

/-- One line of `format_tool_calls_text` (lines 83-95): name from the
nested function object, else the top-level name, else `unknown_tool`
(empty strings are falsy); arguments from the nested function object,
falling back to the top level only when the nested value is `None`. -/
def toolCallLine (tc : ToolCall) : String :=
  let name := pyOrS (tc.function.bind (fun f => f.name)) (pyOrS tc.name "unknown_tool")
  let args := (tc.function.bind (fun f => f.arguments)).orElse (fun _ => tc.arguments)
  name ++ ": " ++ argsText args

/-- Embedding of `format_tool_calls_text` (message.py lines 80-97). -/
def format_tool_calls_text (tcs : List ToolCall) : String :=
  String.intercalate "\n" (tcs.map toolCallLine)

/-- An attachment descriptor `{"mime": ..., "data": ...}` (message.py line
109): `data` is base64 text. -/
structure Attachment where
  mime : String
  data : String
deriving DecidableEq, Repr

/-- Model of the data-URI regex `data:([^;]+);base64,(.+)` under `re.match`
(message.py line 123): URL starts with `data:`, group 1 is the maximal
non-empty run of non-`;` characters (forced up to the first `;`), then the
literal `;base64,`, then group 2 is the maximal non-empty run of
non-newline characters (`.` does not match a newline). Characters are
handled at list level. -/
def dataUriMatch (url : String) : Option (String × String) :=
  let cs := url.data
  if cs.take 5 = "data:".data then
    let after := cs.drop 5
    let mime := after.takeWhile (fun c => c != ';')
    if mime ≠ [] then
      let rest := after.drop mime.length
      if rest.take 8 = ";base64,".data then
        let payload := (rest.drop 8).takeWhile (fun c => c != '\n')
        if payload ≠ [] then some (String.mk mime, String.mk payload) else none
      else none
    else none
  else none

/-- Model of `url.startswith(("http://", "https://"))` (message.py line
126). -/
def url_is_http (url : String) : Bool :=
  url.data.take 7 = "http://".data || url.data.take 8 = "https://".data

/-- One step of the content-part loop of `parse_last_message` (message.py
lines 117-129), folding over `(text, inline attachments, remote urls)`:
text parts extend the text, `image_url` parts are captured inline on a
data-URI match, queued when the URL has an http(s) scheme, and dropped
(only logged) otherwise. -/
def process_part (st : String × List Attachment × List String) (p : ContentPart) :
    String × List Attachment × List String :=
  if p.ptype = "text" then (st.1 ++ p.text, st.2.1, st.2.2)
  else if p.ptype = "image_url" then
    match dataUriMatch p.imageUrl with
    | some (m, d) => (st.1, st.2.1 ++ [⟨m, d⟩], st.2.2)
    | none =>
      if url_is_http p.imageUrl then (st.1, st.2.1, st.2.2 ++ [p.imageUrl])
      else st
  else st

/-- Content resolution of `parse_last_message` (message.py lines 112-129):
text for a string, compact JSON for a dict, the part fold for a list,
nothing for anything else. -/
def split_content (content : ContentVal) : String × List Attachment × List String :=
  match content with
  | .strVal s => (s, [], [])
  | .dictVal d => (d, [], [])
  | .listVal parts => parts.foldl process_part ("", [], [])
  | .noneVal => ("", [], [])

/-- RFC 4648 base64 alphabet. -/
def base64_chars : List Char :=
  "ABCDEFGHIJKLMNOPQRSTUVWXYZabcdefghijklmnopqrstuvwxyz0123456789+/".data

def b64char (n : Nat) : Char := base64_chars.getD n 'A'

/-- Standard base64 of a byte list (three bytes to four characters, `=`
padding). -/
def base64_encode_bytes : List UInt8 → List Char
  | [] => []
  | [a] =>
    let n := a.toNat
    [b64char (n / 4), b64char (n % 4 * 16), '=', '=']
  | [a, b] =>
    let n := a.toNat * 256 + b.toNat
    [b64char (n / 1024), b64char (n / 16 % 64), b64char (n % 16 * 4), '=']
  | a :: b :: c :: rest =>
    let n := a.toNat * 65536 + b.toNat * 256 + c.toNat
    b64char (n / 262144) :: b64char (n / 4096 % 64) :: b64char (n / 64 % 64) ::
      b64char (n % 64) :: base64_encode_bytes rest

/-- Model of `base64.b64encode(resp.content).decode()` (message.py line
160) on a UTF-8 text body. -/
def base64_encode (s : String) : String := String.mk (base64_encode_bytes s.toUTF8.toList)

/-- Model of `headers.get("content-type", "application/octet-stream").split(";")[0]`
(message.py line 158). -/
def content_type_main (ct : String) : String :=
  String.mk (ct.data.takeWhile (fun c => c != ';'))

/-- Model of one `httpx` response as observed by `download_url`. -/
structure HttpResp where
  status : Nat
  contentType : Option String
  body : String
deriving DecidableEq, Repr

/-- Outcome of `http_client.get(url, ...)`: a response, or any raised
exception (connection error, timeout, ...). -/
inductive FetchOutcome where
  | resp (r : HttpResp)
  | exn
deriving DecidableEq, Repr

/-- Embedding of the inner `download_url` coroutine of `parse_last_message`
(message.py lines 151-169): a raised fetch is caught and yields `None`; a
404 yields `None`; `raise_for_status` raises on any 4xx/5xx status, caught
as `None`; otherwise the body is base64-encoded and tagged with the main
content type (default `application/octet-stream`). -/
def download_url (fetch : String → FetchOutcome) (url : String) : Option Attachment :=
  match fetch url with
  | .exn => none
  | .resp r =>
    if r.status = 404 then none
    else if 400 ≤ r.status ∧ r.status < 600 then none
    else some ⟨content_type_main (r.contentType.getD "application/octet-stream"),
      base64_encode r.body⟩

/-- Model of `asyncio.gather(*[download_url(u) for u in image_urls],
return_exceptions=True)` (message.py line 171): one result slot per URL in
input order (`download_url` catches every exception, so no slot holds an
exception). -/
def download_results (fetch : String → FetchOutcome) (urls : List String) :
    List (Option Attachment) :=
  urls.map (download_url fetch)

/-- Arguments rendering for a legacy `function_call`
(`get("arguments", "{}")`, message.py lines 146 and 210). -/
def fnArgsText (fc : FnCall) : String :=
  match fc.arguments with
  | some (.strArg s) => s
  | some (.otherArg d) => d
  | none => "\x7b\x7d"

/-- Role-specific augmentation of the extracted text in
`parse_last_message` (message.py lines 131-147). -/
def augment_text (last : Message) (txt : String) : String :=
  let role_lower := pyLower (last.role.getD "")
  if role_lower = "tool" then
    let tool_name := pyOrS last.name "tool"
    let call_part := match last.tool_call_id with
      | some cid => if cid = "" then "" else " (" ++ cid ++ ")"
      | none => ""
    "Tool result from " ++ tool_name ++ call_part ++ ":\n" ++ txt
  else if role_lower = "assistant" then
    let tcs := last.tool_calls.getD []
    if tcs ≠ [] then
      "Assistant requested tool calls:\n" ++ format_tool_calls_text tcs ++
        (if txt ≠ "" then "\n" ++ txt else "")
    else
      match last.function_call with
      | some fc =>
        if truthyOpt fc.name then
          "Assistant requested function call: " ++ fc.name.getD "" ++ "(" ++ fnArgsText fc ++
            ")" ++ (if txt ≠ "" then "\n" ++ txt else "")
        else txt
      | none => txt
  else txt

/-- Embedding of `parse_last_message` (message.py lines 100-180): resolve
the last message's content into text, inline attachments and remote URLs;
augment the text by role; download the remote URLs in input order; append
the successful downloads (failures elided) after the inline attachments. -/
def parse_last_message (fetch : String → FetchOutcome) (messages : List Message) :
    String × List Attachment :=
  match messages.getLast? with
  | none => ("", [])
  | some last =>
    let tiu := split_content last.content
    (augment_text last tiu.1,
     tiu.2.1 ++ (download_results fetch tiu.2.2).filterMap id)

/-- Role label of `build_full_context_text` (message.py lines 187-198). -/
def roleLabel (m : Message) : String :=
  let role_lower := pyLower (m.role.getD "")
  if role_lower = "system" then "System"
  else if role_lower = "user" then "User"
  else if role_lower = "tool" then "Tool[" ++ pyOrS m.name "tool" ++ "]"
  else if role_lower = "assistant" then "Assistant"
  else pyOrS m.role "Assistant"

/-- Assistant tool-call / function-call annotation of
`build_full_context_text` (message.py lines 202-211). -/
def assistantAugment (m : Message) (content_str : String) : String :=
  if pyLower (m.role.getD "") = "assistant" then
    let tcs := m.tool_calls.getD []
    if tcs ≠ [] then
      (if content_str ≠ "" then content_str ++ "\n" else "") ++ "Tool calls:\n" ++
        format_tool_calls_text tcs
    else
      match m.function_call with
      | some fc =>
        if truthyOpt fc.name then
          (if content_str ≠ "" then content_str ++ "\n" else "") ++ "Function call: " ++
            fc.name.getD "" ++ "(" ++ fnArgsText fc ++ ")"
        else content_str
      | none => content_str
  else content_str

/-- Image markers of `build_full_context_text` (message.py lines 213-217):
one `[图片]` per `image_url` part of a multimodal content. -/
def imageMarkers (m : Message) : String :=
  match m.content with
  | .listVal parts =>
      String.join ((parts.filter (fun p => p.ptype == "image_url")).map (fun _ => "[图片]"))
  | _ => ""

/-- Embedding of `build_full_context_text` (message.py lines 183-220). -/
def build_full_context_text (messages : List Message) : String :=
  messages.foldl (fun prompt m =>
    prompt ++ roleLabel m ++ ": " ++
      (assistantAugment m (extract_text_from_content m.content) ++ imageMarkers m) ++
      "\n\n") ""

/-- C7: per-URL fetch failures are isolated in `parse_last_message`'s
remote fan-out: an exception or a non-success status yields `none` for
that URL only; the gathered results keep one slot per URL in input order
(concretely, a 404 URL and a 200 URL yield `[none, some _]` without
raising); and the final attachment list is the inline attachments followed
by the successful downloads in input order with `none` slots elided. -/
theorem download_isolation_spec :
    (∀ (fetch : String → FetchOutcome) (urls : List String),
      (download_results fetch urls).length = urls.length) ∧
    (∀ (fetch : String → FetchOutcome) (url : String),
      fetch url = .exn → download_url fetch url = none) ∧
    (∀ (fetch : String → FetchOutcome) (url : String) (r : HttpResp),
      fetch url = .resp r → 400 ≤ r.status → r.status < 600 →
      download_url fetch url = none) ∧
    (download_results
        (fun u => if u = "http://a/1" then .resp ⟨404, some "text/plain", "gone"⟩
          else .resp ⟨200, some "image/png", "AB"⟩)
        ["http://a/1", "http://a/2"] =
      [none, some ⟨"image/png", base64_encode "AB"⟩]) ∧
    (∀ (fetch : String → FetchOutcome) (messages : List Message) (last : Message),
      messages.getLast? = some last →
      (parse_last_message fetch messages).2 =
        (split_content last.content).2.1 ++
          (download_results fetch (split_content last.content).2.2).filterMap id) := by
  refine ⟨?_, ?_, ?_, ?_, ?_⟩
  · intro fetch urls
    exact List.length_map urls _
  · intro fetch url hexn
    unfold download_url
    rw [hexn]
  · intro fetch url r hr h400 h600
    simp only [download_url, hr]
    by_cases h404 : r.status = 404
    · rw [if_pos h404]
    · rw [if_neg h404, if_pos ⟨h400, h600⟩]
  · rfl
  · intro fetch messages last hlast
    unfold parse_last_message
    rw [hlast]

/-- C7 witness: the conditional parts of `download_isolation_spec`
discharged at concrete inputs (a raising fetch, a 500 response, and a
single tool message with no remote URL). -/
theorem download_isolation_spec_witness :
    ((fun _ : String => FetchOutcome.exn) "u" = .exn ∧
      download_url (fun _ => .exn) "u" = none) ∧
    ((fun _ : String => FetchOutcome.resp ⟨500, none, "b"⟩) "u" = .resp ⟨500, none, "b"⟩ ∧
      400 ≤ 500 ∧ 500 < 600 ∧
      download_url (fun _ => .resp ⟨500, none, "b"⟩) "u" = none) ∧
    (([{ role := some "user", content := .strVal "hi" }] : List Message).getLast? =
        some { role := some "user", content := .strVal "hi" } ∧
      (parse_last_message (fun _ => .exn)
          [{ role := some "user", content := .strVal "hi" }]).2 =
        (split_content (ContentVal.strVal "hi")).2.1 ++
          (download_results (fun _ => .exn)
            (split_content (ContentVal.strVal "hi")).2.2).filterMap id) := by
  refine ⟨⟨rfl, ?_⟩, ⟨rfl, by decide, by decide, ?_⟩, ⟨rfl, ?_⟩⟩
  · exact download_isolation_spec.2.1 (fun _ => .exn) "u" rfl
  · exact download_isolation_spec.2.2.1 (fun _ => .resp ⟨500, none, "b"⟩) "u"
      ⟨500, none, "b"⟩ rfl (by decide) (by decide)
  · exact download_isolation_spec.2.2.2.2 (fun _ => .exn)
      [{ role := some "user", content := .strVal "hi" }]
      { role := some "user", content := .strVal "hi" } rfl

/-- C8: a data-URI `image_url` part is captured inline with its mime and
payload and queues no remote fetch (concretely, the single-part content
`data:image/png;base64,QUJD` yields text `""`, the inline attachment
`{mime := "image/png", data := "QUJD"}`, no queued URL, and the same final
result for every fetch oracle); an `image_url` part that is not a data URI
is queued exactly when its URL starts with `http://` or `https://`, and
dropped otherwise. -/
theorem inline_attachment_spec :
    (split_content (.listVal [⟨"image_url", "", "data:image/png;base64,QUJD"⟩]) =
      ("", [⟨"image/png", "QUJD"⟩], []) ∧
      ∀ fetch : String → FetchOutcome,
        parse_last_message fetch
            [{ role := some "user",
               content := .listVal [⟨"image_url", "", "data:image/png;base64,QUJD"⟩] }] =
          ("", [⟨"image/png", "QUJD"⟩])) ∧
    (∀ (st : String × List Attachment × List String) (p : ContentPart) (m d : String),
      p.ptype = "image_url" → dataUriMatch p.imageUrl = some (m, d) →
      process_part st p = (st.1, st.2.1 ++ [⟨m, d⟩], st.2.2)) ∧
    (∀ (st : String × List Attachment × List String) (p : ContentPart),
      p.ptype = "image_url" → dataUriMatch p.imageUrl = none →
      url_is_http p.imageUrl = true →
      process_part st p = (st.1, st.2.1, st.2.2 ++ [p.imageUrl])) ∧
    (∀ (st : String × List Attachment × List String) (p : ContentPart),
      p.ptype = "image_url" → dataUriMatch p.imageUrl = none →
      url_is_http p.imageUrl = false →
      process_part st p = st) := by
  refine ⟨⟨by decide, ?_⟩, ?_, ?_, ?_⟩
  · intro fetch
    unfold parse_last_message
    simp only [List.getLast?_singleton]
    rw [show split_content
        (.listVal [⟨"image_url", "", "data:image/png;base64,QUJD"⟩]) =
        ("", [⟨"image/png", "QUJD"⟩], []) from by decide]
    rfl
  · intro st p m d hty hmatch
    unfold process_part
    rw [if_neg (by rw [hty]; decide), if_pos hty, hmatch]
  · intro st p hty hmatch hhttp
    unfold process_part
    rw [if_neg (by rw [hty]; decide), if_pos hty, hmatch, if_pos hhttp]
  · intro st p hty hmatch hhttp
    unfold process_part
    rw [if_neg (by rw [hty]; decide), if_pos hty, hmatch,
      if_neg (by rw [hhttp]; exact Bool.false_ne_true)]

/-- C8 witness: the conditional parts of `inline_attachment_spec`
discharged at a concrete data-URI part, a concrete http part and a
concrete unsupported part. -/
theorem inline_attachment_spec_witness :
    ((⟨"image_url", "", "data:image/png;base64,QUJD"⟩ : ContentPart).ptype = "image_url" ∧
      dataUriMatch "data:image/png;base64,QUJD" = some ("image/png", "QUJD") ∧
      process_part ("", [], []) ⟨"image_url", "", "data:image/png;base64,QUJD"⟩ =
        ("", [] ++ [⟨"image/png", "QUJD"⟩], [])) ∧
    (dataUriMatch "http://x/f.png" = none ∧ url_is_http "http://x/f.png" = true ∧
      process_part ("", [], []) ⟨"image_url", "", "http://x/f.png"⟩ =
        ("", [], [] ++ ["http://x/f.png"])) ∧
    (dataUriMatch "ftp://x" = none ∧ url_is_http "ftp://x" = false ∧
      process_part ("", [], []) ⟨"image_url", "", "ftp://x"⟩ = ("", [], [])) := by
  refine ⟨⟨rfl, by decide, ?_⟩, ⟨by decide, by decide, ?_⟩, ⟨by decide, by decide, ?_⟩⟩
  · exact inline_attachment_spec.2.1 ("", [], []) ⟨"image_url", "", "data:image/png;base64,QUJD"⟩
      "image/png" "QUJD" rfl (by decide)
  · exact inline_attachment_spec.2.2.1 ("", [], []) ⟨"image_url", "", "http://x/f.png"⟩
      rfl (by decide) (by decide)
  · exact inline_attachment_spec.2.2.2 ("", [], []) ⟨"image_url", "", "ftp://x"⟩
      rfl (by decide) (by decide)

/-- C9 counterexample: a tool message with name `search`, call id `c1` and
text `42` is NOT rendered as `"Tool result from search(c1):\n42"` (name
immediately followed by the parenthesized call id): the source inserts a
space before the parenthesis (`f" ({tool_call_id})"`, message.py line
136), producing `"Tool result from search (c1):\n42"`. -/
theorem tool_render_counterexample :
    (parse_last_message (fun _ => .exn)
        [{ role := some "tool", name := some "search", tool_call_id := some "c1",
           content := .strVal "42" }]).1 ≠ "Tool result from search(c1):\n42" ∧
    (parse_last_message (fun _ => .exn)
        [{ role := some "tool", name := some "search", tool_call_id := some "c1",
           content := .strVal "42" }]).1 = "Tool result from search (c1):\n42" := by
  refine ⟨?_, by decide⟩
  decide

/-- C9 (amended): a tool-role last message with non-empty name `n`,
non-empty call id `c` and text `t` is rendered by `parse_last_message` as
`"Tool result from <n> (<c>):\n<t>"`, with a space between the name and
the parenthesized call id; and `build_full_context_text` on the single
message `{role := "tool", name := "search", content := "42"}` returns
exactly `"Tool[search]: 42\n\n"`. -/
theorem tool_render_spec (n c t : String) (f : String → FetchOutcome)
    (hn : n ≠ "") (hc : c ≠ "") :
    (parse_last_message f
        [{ role := some "tool", name := some n, tool_call_id := some c,
           content := .strVal t }]).1 =
      "Tool result from " ++ n ++ " (" ++ c ++ "):\n" ++ t ∧
    build_full_context_text
        [{ role := some "tool", name := some "search", content := .strVal "42" }] =
      "Tool[search]: 42\n\n" := by
  constructor
  · unfold parse_last_message
    simp only [List.getLast?_singleton]
    unfold augment_text
    rw [if_pos (by decide : pyLower ((some "tool").getD "") = "tool")]
    simp only [pyOrS]
    rw [if_neg hn, if_neg hc]
    apply String.ext
    simp only [String.data_append, List.append_assoc]
    rfl
  · decide

/-- C9 witness: `tool_render_spec` instantiated at name `search`, call id
`c1`, text `42` and a raising fetch oracle. -/
theorem tool_render_spec_witness :
    ("search" : String) ≠ "" ∧ ("c1" : String) ≠ "" ∧
    ((parse_last_message (fun _ => .exn)
        [{ role := some "tool", name := some "search", tool_call_id := some "c1",
           content := .strVal "42" }]).1 =
      "Tool result from " ++ "search" ++ " (" ++ "c1" ++ "):\n" ++ "42" ∧
    build_full_context_text
        [{ role := some "tool", name := some "search", content := .strVal "42" }] =
      "Tool[search]: 42\n\n") :=
  ⟨by decide, by decide,
    tool_render_spec "search" "c1" "42" (fun _ => .exn) (by decide) (by decide)⟩
